import Mathlib

/-!
Shallow embedding of auditok's low-level audio I/O module (`auditok/io.py`)
and proofs about its specified behaviour.

Modelling conventions:
* Python byte strings are `List Nat` (one entry per byte).
* Python `int` values are `Int` (or `Nat` where the source only ever holds
  non-negative counts, such as byte positions and buffer lengths).
* Python floats are modelled as rationals (`ℚ`).
* Exceptions are modelled with `Except PyErr`: a raised exception becomes
  `.error e`.  All the modelled methods raise before mutating any state, so an
  `.error` result leaves the receiver unchanged.
* `sys.stdin` is modelled as the list of bytes remaining on standard input;
  `BufferedReader.read(n)` returns `min n remaining` bytes (it returns fewer
  than `n` bytes only at end of stream).
-/

namespace Auditok

/-- Error values raised by the module: `AudioIOError`, its subclass
`AudioParameterError`, Python's builtin `ValueError` (raised by
`BufferAudioSource.set_position`) and `IndexError` (raised by the channel
extractor for an out-of-range channel index). -/
inductive PyErr where
  | audioIOError (msg : String)
  | audioParameterError (msg : String)
  | valueError (msg : String)
  | indexError (msg : String)
deriving DecidableEq, Repr

/-- Values stored in a Python parameter dictionary: `None`, an `int`, or a
`str`. -/
inductive PyVal where
  | vNone
  | vInt (n : Int)
  | vStr (s : String)
deriving DecidableEq, Repr

/-- Python truthiness for the modelled values (`None`, `0` and `""` are
falsy). -/
def PyVal.truthy : PyVal → Bool
  | .vNone => false
  | .vInt n => n != 0
  | .vStr s => s != ""

/-- Python's `a or b`: returns `a` if it is truthy, otherwise `b`. -/
def pyOr (a b : PyVal) : PyVal := if a.truthy then a else b

/-- Python's `isinstance(v, int)` for the modelled values. -/
def PyVal.isInt : PyVal → Bool
  | .vInt _ => true
  | _ => false

/-- Python's `str(v)` as used by `str.format` on the modelled values. -/
def PyVal.pyStr : PyVal → String
  | .vNone => "None"
  | .vInt n => toString n
  | .vStr s => s

/-- Association-list lookup modelling a Python `dict` of options
(first binding of a key wins). -/
def lookupVal : List (String × PyVal) → String → Option PyVal
  | [], _ => none
  | (k, v) :: rest, key => if k = key then some v else lookupVal rest key

/-- Python's `dict.get(key, default)`. -/
def pyGetD (d : List (String × PyVal)) (key : String) (dflt : PyVal) : PyVal :=
  (lookupVal d key).getD dflt

/-- A resolved `use_channel` directive: a concrete channel index or the
special `mix` value. -/
inductive UseChannel where
  | index (i : Int)
  | mix
deriving DecidableEq, Repr

/-- `_normalize_use_channel` from io.py.  `None` maps to channel 0, an `int`
or `"mix"` is kept, `"left"`/`"right"` map to 0/1, anything else raises
`AudioParameterError`.  Python bug kept faithfully: the second line of the
intended error message is a separate (discarded) expression statement, so the
message raised is only the first string literal. -/
def _normalize_use_channel : PyVal → Except PyErr UseChannel
  | .vNone => .ok (.index 0)
  | .vInt n => .ok (.index n)
  | .vStr s =>
    if s = "mix" then .ok .mix
    else if s = "left" then .ok (.index 0)
    else if s = "right" then .ok (.index 1)
    else .error (.audioParameterError "'use_channel' parameter must be an integer ")

/-- The loop body of `_get_audio_parameters`:
`param_dict.get(long_name, None) or param_dict.get(short_name, None)`. -/
def selected_param (d : List (String × PyVal)) (long short : String) : PyVal :=
  pyOr (pyGetD d long .vNone) (pyGetD d short .vNone)

/-- Error message of `_get_audio_parameters` for a missing or non-integer
parameter, mirroring
`"'-ln-' (or '-sn-') must be an integer, found: '-val-'".format(...)`. -/
def errIntMsg (long short : String) (v : PyVal) : String :=
  "'" ++ long ++ "' (or '" ++ short ++ "') must be an integer, found: '"
    ++ v.pyStr ++ "'"

/-- One iteration of the `_get_audio_parameters` loop: select the value with
the `or`-fallback and require it to be an `int`. -/
def _resolve_int_param (d : List (String × PyVal)) (long short : String) :
    Except PyErr Int :=
  match selected_param d long short with
  | .vInt n => .ok n
  | v => .error (.audioParameterError (errIntMsg long short v))

/-- `_get_audio_parameters` from io.py: resolves
`(sampling_rate, sample_width, channels, use_channel)` from an option
dictionary. -/
def _get_audio_parameters (d : List (String × PyVal)) :
    Except PyErr (Int × Int × Int × UseChannel) := do
  let sampling_rate ← _resolve_int_param d "sampling_rate" "sr"
  let sample_width ← _resolve_int_param d "sample_width" "sw"
  let channels ← _resolve_int_param d "channels" "ch"
  let use_channel ← _normalize_use_channel
    (pyGetD d "use_channel" (pyGetD d "uc" (.vInt 0)))
  pure (sampling_rate, sample_width, channels, use_channel)

/-- `check_audio_data` from io.py: the buffer length must be an exact
multiple of `sample_width * channels`. -/
def check_audio_data (data : List Nat) (sample_width channels : Nat) :
    Except PyErr Unit :=
  let sample_size_bytes := sample_width * channels
  let nb_samples := data.length / sample_size_bytes
  if nb_samples * sample_size_bytes = data.length then .ok ()
  else .error (.audioParameterError
    "The length of audio data must be an integer multiple of `sample_width * channels`")

/-- Validation performed by `AudioSource.__init__`: `sample_width` must be
1, 2 or 4 and only mono (`channels == 1`) is supported. -/
def audioSourceValidate (sample_width channels : Nat) : Except PyErr Unit :=
  if sample_width = 1 ∨ sample_width = 2 ∨ sample_width = 4 then
    if channels = 1 then .ok ()
    else .error (.audioParameterError "Only mono audio is currently supported")
  else .error (.audioParameterError "Sample width must be one of: 1, 2 or 4 (bytes)")

/-- State of a `BufferAudioSource`: the backing byte buffer, the immutable
audio parameters, the current read position in bytes and the open flag. -/
structure BufferAudioSource where
  buffer : List Nat
  sampling_rate : Nat
  sample_width : Nat
  channels : Nat
  current_position_bytes : Nat
  isOpen : Bool
deriving DecidableEq, Repr

/-- `BufferAudioSource.__init__`: validates the parameters and the frame
alignment of the initial buffer; the position starts at 0 and the source
starts closed. -/
def BufferAudioSource.make (data_buffer : List Nat)
    (sampling_rate sample_width channels : Nat) :
    Except PyErr BufferAudioSource := do
  audioSourceValidate sample_width channels
  check_audio_data data_buffer sample_width channels
  pure { buffer := data_buffer, sampling_rate := sampling_rate,
         sample_width := sample_width, channels := channels,
         current_position_bytes := 0, isOpen := false }

/-- `self._sample_size_all_channels = sample_width * channels`. -/
def BufferAudioSource.sample_size_all_channels (s : BufferAudioSource) : Nat :=
  s.sample_width * s.channels

/-- `BufferAudioSource.open`. -/
def BufferAudioSource.openSource (s : BufferAudioSource) : BufferAudioSource :=
  { s with isOpen := true }

/-- `BufferAudioSource.read(size)`: slices
`buffer[pos : pos + sample_size_all_channels * size]`; a non-empty slice is
returned and the position advances by its length, an empty slice yields the
end marker `None` and leaves the position unchanged. -/
def BufferAudioSource.read (s : BufferAudioSource) (size : Nat) :
    Except PyErr (Option (List Nat) × BufferAudioSource) :=
  if s.isOpen then
    let bytes_to_read := s.sample_size_all_channels * size
    let data := (s.buffer.drop s.current_position_bytes).take bytes_to_read
    if data = [] then .ok (none, s)
    else .ok (some data,
      { s with current_position_bytes := s.current_position_bytes + data.length })
  else .error (.audioIOError "Stream is not open")

/-- `BufferAudioSource.get_data_buffer`. -/
def BufferAudioSource.get_data_buffer (s : BufferAudioSource) : List Nat :=
  s.buffer

/-- `BufferAudioSource.set_data`: re-validates frame alignment, replaces the
buffer and resets the byte position to 0. -/
def BufferAudioSource.set_data (s : BufferAudioSource) (data_buffer : List Nat) :
    Except PyErr BufferAudioSource := do
  check_audio_data data_buffer s.sample_width s.channels
  pure { s with buffer := data_buffer, current_position_bytes := 0 }

/-- `BufferAudioSource.append_data`: re-validates frame alignment and
concatenates; the position is not touched. -/
def BufferAudioSource.append_data (s : BufferAudioSource) (data_buffer : List Nat) :
    Except PyErr BufferAudioSource := do
  check_audio_data data_buffer s.sample_width s.channels
  pure { s with buffer := s.buffer ++ data_buffer }

/-- `BufferAudioSource.get_position`: `current_position_bytes /
sample_size_all_channels` with Python's true (float) division, modelled in
ℚ. -/
def BufferAudioSource.get_position (s : BufferAudioSource) : ℚ :=
  (s.current_position_bytes : ℚ) / (s.sample_size_all_channels : ℚ)

/-- `BufferAudioSource.get_time_position`:
`float(current_position_bytes) / (sample_size_all_channels * sampling_rate)`. -/
def BufferAudioSource.get_time_position (s : BufferAudioSource) : ℚ :=
  (s.current_position_bytes : ℚ)
    / ((s.sample_size_all_channels * s.sampling_rate : Nat) : ℚ)

/-- `BufferAudioSource.set_position(position)`: raises `ValueError` on a
negative position, otherwise converts to bytes and silently clamps to the
buffer length. -/
def BufferAudioSource.set_position (s : BufferAudioSource) (position : Int) :
    Except PyErr BufferAudioSource :=
  if position < 0 then .error (.valueError "position must be >= 0")
  else
    let posBytes : Int := position * (s.sample_size_all_channels : Int)
    .ok { s with current_position_bytes :=
      if posBytes < (s.buffer.length : Int) then posBytes.toNat
      else s.buffer.length }

/-- Python's `int()` on a rational value: truncation toward zero. -/
def pyInt (q : ℚ) : Int := if q < 0 then ⌈q⌉ else ⌊q⌋

/-- `BufferAudioSource.set_time_position(time_position)`:
`set_position(int(sampling_rate * time_position))`. -/
def BufferAudioSource.set_time_position (s : BufferAudioSource)
    (time_position : ℚ) : Except PyErr BufferAudioSource :=
  s.set_position (pyInt ((s.sampling_rate : ℚ) * time_position))

/-- State of a `StdinAudioSource` (its audio parameters and the open flag);
the bytes pending on standard input are passed to `read` explicitly. -/
structure StdinAudioSource where
  sampling_rate : Nat
  sample_width : Nat
  channels : Nat
  isOpen : Bool
deriving DecidableEq, Repr

/-- `StdinAudioSource.read(size)`: performs a single
`sys.stdin.buffer.read(size * sample_width * channels)` call, which returns
up to that many bytes (fewer only at end of stream); an empty result becomes
the end marker.  Returns the data (or end marker) together with the bytes
still pending on standard input. -/
def StdinAudioSource.read (s : StdinAudioSource) (stdin : List Nat)
    (size : Nat) : Except PyErr (Option (List Nat) × List Nat) :=
  if s.isOpen then
    let to_read := size * s.sample_width * s.channels
    let data := stdin.take to_read
    if data = [] then .ok (none, stdin.drop to_read)
    else .ok (some data, stdin.drop to_read)
  else .error (.audioIOError "Stream is not open")

/-- Little-endian unsigned decoding of a byte list (first byte is least
significant); each byte is reduced mod 256. -/
def leDecode (bytes : List Nat) : Nat :=
  bytes.foldr (fun b acc => b % 256 + 256 * acc) 0

/-- Two's-complement reinterpretation of a `w`-byte unsigned value as a
signed integer. -/
def toSigned (w : Nat) (u : Nat) : Int :=
  if u < 2 ^ (8 * w - 1) then (u : Int) else (u : Int) - 2 ^ (8 * w)

/-- Little-endian two's-complement encoding of a signed integer into `w`
bytes. -/
def encodeSigned (w : Nat) (v : Int) : List Nat :=
  (List.range w).map fun i => ((v % (2 ^ (8 * w))).toNat / 256 ^ i) % 256

/-- Splits a byte list into consecutive chunks of `n` bytes (`n > 0`); used
to cut a buffer into frames and a frame into per-channel samples. -/
def chunksOf (n : Nat) (l : List Nat) : List (List Nat) :=
  if h : n = 0 ∨ l = [] then []
  else l.take n :: chunksOf n (l.drop n)
termination_by l.length
decreasing_by
  push_neg at h
  have hl : 0 < l.length := List.length_pos.mpr h.2
  simp only [List.length_drop]
  omega

/-- Signed sample values of one interleaved frame, given the per-sample byte
width. -/
def frameSamples (sample_width : Nat) (frame : List Nat) : List Int :=
  (chunksOf sample_width frame).map fun sb => toSigned sample_width (leDecode sb)

/-- Modelled from the spec: `_extract_selected_channel` (§4.2 Channel
Extractor).  The function itself is absent from the provided sources — only
its call sites in `io.py` (`_load_raw`, `_load_wave`, `_load_with_pydub`)
remain — so it is modelled from the spec's words: the buffer length must be
a multiple of `channels * sample_width` (parameter error otherwise); an
integer directive `i` copies the `i`-th channel's `sample_width` bytes of
every frame and fails with an index error when `i` is not a valid channel;
`mix` replaces every frame by the arithmetic mean of its `channels` signed
sample values, rounded to the nearest integer (ties round half up, a choice
the spec leaves open) and re-encoded on `sample_width` bytes. -/
def _extract_selected_channel (buffer : List Nat) (channels sample_width : Nat)
    (use_channel : UseChannel) : Except PyErr (List Nat) :=
  if ¬ (sample_width * channels ∣ buffer.length) then
    .error (.audioParameterError
      "The length of audio data must be an integer multiple of `sample_width * channels`")
  else
    match use_channel with
    | .mix =>
      .ok ((chunksOf (sample_width * channels) buffer).map (fun frame =>
        encodeSigned sample_width
          (round (((frameSamples sample_width frame).sum : ℚ) / (channels : ℚ))))).flatten
    | .index i =>
      if 0 ≤ i ∧ i < (channels : Int) then
        .ok ((chunksOf (sample_width * channels) buffer).map (fun frame =>
          (frame.drop (i.toNat * sample_width)).take sample_width)).flatten
      else .error (.indexError "use_channel must be a valid channel index")

/-- Python's `str.lower()`. -/
def pyLower (s : String) : String := String.mk (s.toList.map Char.toLower)

/-- Python's `str.rfind(c)`: index of the last occurrence of `c`, or `-1`. -/
def rfind (l : List Char) (c : Char) : Int :=
  match l with
  | [] => -1
  | x :: xs =>
    let r := rfind xs c
    if 0 ≤ r then r + 1
    else if x = c then 0 else -1

/-- The extension part (dot included) returned by `os.path.splitext`: the
tail starting at the last dot, provided that dot comes after the last path
separator and the base name has at least one non-dot character before it
(leading dots of the base name never start an extension). -/
def splitextExt (p : List Char) : List Char :=
  let sepIndex := rfind p '/'
  let dotIndex := rfind p '.'
  if sepIndex < dotIndex ∧
      ((p.drop (sepIndex + 1).toNat).take (dotIndex - sepIndex - 1).toNat).any
        (fun ch => ch ≠ '.') then
    p.drop dotIndex.toNat
  else []

/-- `_guess_audio_format` from io.py: an explicit format is lowercased and
returned; otherwise the extension of the lowercased filename (without its
dot) is used, or `None` when there is none. -/
def _guess_audio_format (fmt : Option String) (filename : String) :
    Option String :=
  match fmt with
  | some f => some (pyLower f)
  | none =>
    let extension := String.mk ((splitextExt (pyLower filename).toList).drop 1)
    if extension = "" then none else some extension

/-- `_load_raw` from io.py (non-`large_file` path, with the bytes of the
file passed in as `content`): requires all three audio parameters, extracts
one channel when the data is not mono, and wraps the result in a
`BufferAudioSource` with `channels=1`. -/
def _load_raw (content : List Nat)
    (sampling_rate sample_width channels : Option Nat)
    (use_channel : UseChannel) : Except PyErr BufferAudioSource :=
  match sampling_rate, sample_width, channels with
  | some sr, some sw, some ch =>
    if ch ≠ 1 then do
      let data ← _extract_selected_channel content ch sw use_channel
      BufferAudioSource.make data sr sw 1
    else BufferAudioSource.make content sr sw 1
  | _, _, _ =>
    .error (.audioParameterError
      "All audio parameters are required for raw audio files")

/-- The write performed by `to_file`: a headerless raw write
(`_save_raw`, which writes the input bytes verbatim), a wave-container write
(`_save_wave`) or a pydub-backed write (`_save_with_pydub`). -/
inductive WriteAction where
  | raw (data : List Nat)
  | wav (data : List Nat) (sampling_rate sample_width channels : Int)
  | pydub (data : List Nat) (audio_format : String)
      (sampling_rate sample_width channels : Int)
deriving DecidableEq, Repr

/-- `to_file` from io.py: guesses the format, takes the raw path for `None`
or `"raw"`, otherwise resolves the audio parameters (re-raising any
`AudioParameterError` with a fixed message — the second line of the intended
message is a discarded expression statement in the source, so only the first
string literal survives) and dispatches to the wave or pydub writer.  The
returned `WriteAction` is the only file write performed; an `.error` result
means nothing was written. -/
def to_file (data : List Nat) (file : String) (audio_format : Option String)
    (kwargs : List (String × PyVal)) (withPydub : Bool) :
    Except PyErr WriteAction :=
  let fmt := _guess_audio_format audio_format file
  if fmt = none ∨ fmt = some "raw" then .ok (.raw data)
  else
    match _get_audio_parameters kwargs with
    | .error (.audioParameterError _) =>
      .error (.audioParameterError
        "All audio parameters are required to save formats ")
    | .error e => .error e
    | .ok (sampling_rate, sample_width, channels, _) =>
      if fmt = some "wav" ∨ fmt = some "wave" then
        .ok (.wav data sampling_rate sample_width channels)
      else if withPydub then
        .ok (.pydub data (fmt.getD "") sampling_rate sample_width channels)
      else
        .error (.audioIOError
          ("cannot write file format " ++ fmt.getD "" ++ " (file name: "
            ++ file ++ ")"))

/-- One interleaved 16-bit stereo frame as produced for the claim about the
channel extractor: channel 0 then channel 1, each on 2 little-endian
bytes. -/
def stereoFrame (p : Int × Int) : List Nat :=
  encodeSigned 2 p.1 ++ encodeSigned 2 p.2

/-- The expected mono mix of one 16-bit stereo frame: the mean of its two
samples rounded to the nearest integer, re-encoded on 2 bytes. -/
def mixFrame (p : Int × Int) : List Nat :=
  encodeSigned 2 (round (((p.1 + p.2 : Int) : ℚ) / 2))

/-! ### Helper lemmas -/

/-- A frame-aligned buffer passes `check_audio_data`. -/
theorem check_audio_data_ok (data : List Nat) (sample_width channels : Nat)
    (h : sample_width * channels ∣ data.length) :
    check_audio_data data sample_width channels = .ok () := by
  simp only [check_audio_data]
  rw [if_pos (Nat.div_mul_cancel h)]

/-! ### Claim theorems -/

/-- C10: on an open `BufferAudioSource`, `read(0)` returns the end marker
`None` even when unread data remains (the current position is strictly
before the end of the buffer), and the position is left unchanged. -/
theorem read_zero_returns_end_marker (s : BufferAudioSource)
    (hopen : s.isOpen = true)
    (hrem : s.current_position_bytes < s.buffer.length) :
    s.read 0 = .ok (none, s) := by
  simp [BufferAudioSource.read, hopen]

/-- C10 witness: a concrete open source with unread data on which `read(0)`
returns the end marker. -/
theorem read_zero_returns_end_marker_witness :
    ({ buffer := [1, 2, 3, 4], sampling_rate := 16000, sample_width := 2,
       channels := 1, current_position_bytes := 0, isOpen := true } :
        BufferAudioSource).read 0
      = .ok (none, { buffer := [1, 2, 3, 4], sampling_rate := 16000,
                     sample_width := 2, channels := 1,
                     current_position_bytes := 0, isOpen := true }) :=
  read_zero_returns_end_marker _ rfl (by decide)

/-- C9: for a frame-aligned buffer `b`, `append_data b` succeeds, extends
the backing buffer by exactly `b.length` bytes and leaves the read position
(and everything else) unchanged, while `set_data b` succeeds, replaces the
backing buffer with `b` and resets the position to 0. -/
theorem append_and_set_data_effects (s : BufferAudioSource) (b : List Nat)
    (hb : s.sample_width * s.channels ∣ b.length) :
    s.append_data b = .ok { s with buffer := s.buffer ++ b }
    ∧ (s.buffer ++ b).length = s.buffer.length + b.length
    ∧ s.set_data b = .ok { s with buffer := b, current_position_bytes := 0 } := by
  refine ⟨?_, by simp, ?_⟩ <;>
    simp [BufferAudioSource.append_data, BufferAudioSource.set_data,
      check_audio_data_ok _ _ _ hb, Bind.bind, Except.bind, pure, Except.pure]

/-- C9 witness: the effects of `append_data` and `set_data` on a concrete
source and buffer. -/
theorem append_and_set_data_effects_witness :
    ({ buffer := [1, 2], sampling_rate := 8000, sample_width := 2,
       channels := 1, current_position_bytes := 2, isOpen := true } :
        BufferAudioSource).append_data [3, 4]
      = .ok { buffer := [1, 2, 3, 4], sampling_rate := 8000, sample_width := 2,
              channels := 1, current_position_bytes := 2, isOpen := true }
    ∧ ([1, 2] ++ [3, 4] : List Nat).length = 2 + 2
    ∧ ({ buffer := [1, 2], sampling_rate := 8000, sample_width := 2,
         channels := 1, current_position_bytes := 2, isOpen := true } :
          BufferAudioSource).set_data [3, 4]
        = .ok { buffer := [3, 4], sampling_rate := 8000, sample_width := 2,
                channels := 1, current_position_bytes := 0, isOpen := true } :=
  append_and_set_data_effects _ [3, 4] (by decide)

/-- C3: `set_position p` on a position past the available samples succeeds
and silently clamps: `get_position` afterwards is the total number of
samples; a negative position is rejected with Python's
`ValueError("position must be >= 0")` (the raise happens before any
mutation, so the position is unchanged). -/
theorem set_position_clamps_and_rejects_negative (s : BufferAudioSource)
    (p : Int) (hS : 0 < s.sample_size_all_channels)
    (hdiv : s.sample_size_all_channels ∣ s.buffer.length) :
    (((s.buffer.length / s.sample_size_all_channels : Nat) : Int) < p →
       (s.set_position p).map BufferAudioSource.get_position
         = .ok ((s.buffer.length / s.sample_size_all_channels : Nat) : ℚ))
    ∧ (p < 0 →
       s.set_position p = .error (.valueError "position must be >= 0")) := by
  simp only [BufferAudioSource.sample_size_all_channels] at hS hdiv ⊢
  constructor
  · intro hp
    have hnb : (s.buffer.length / (s.sample_width * s.channels))
        * (s.sample_width * s.channels) = s.buffer.length := Nat.div_mul_cancel hdiv
    have hp0 : ¬ p < 0 := by
      have h0 : (0 : Int) ≤
          ((s.buffer.length / (s.sample_width * s.channels) : Nat) : Int) :=
        Int.natCast_nonneg _
      omega
    have hge : ¬ (p * ((s.sample_width * s.channels : Nat) : Int)
        < (s.buffer.length : Int)) := by
      have h1 : ((s.buffer.length / (s.sample_width * s.channels) : Nat) : Int) + 1
          ≤ p := by omega
      have h2 : (((s.buffer.length / (s.sample_width * s.channels) : Nat) : Int) + 1)
            * ((s.sample_width * s.channels : Nat) : Int)
          ≤ p * ((s.sample_width * s.channels : Nat) : Int) :=
        mul_le_mul_of_nonneg_right h1 (by exact_mod_cast hS.le)
      have h3 : (((s.buffer.length / (s.sample_width * s.channels) : Nat) : Int) + 1)
            * ((s.sample_width * s.channels : Nat) : Int)
          = (s.buffer.length : Int) + ((s.sample_width * s.channels : Nat) : Int) := by
        rw [add_mul, one_mul]
        congr 1
        exact_mod_cast hnb
      have h4 : (0 : Int) < ((s.sample_width * s.channels : Nat) : Int) := by
        exact_mod_cast hS
      omega
    simp only [BufferAudioSource.set_position, Except.map,
      BufferAudioSource.get_position, BufferAudioSource.sample_size_all_channels,
      if_neg hp0, if_neg hge]
    rw [Nat.cast_div hdiv (Nat.cast_ne_zero.mpr hS.ne')]
  · intro hneg
    simp [BufferAudioSource.set_position, hneg]

/-- C3 witness: on a 20-sample source, `set_position 25` clamps to the end
(position 20) and `set_position (-1)` raises `ValueError`. -/
theorem set_position_clamps_and_rejects_negative_witness :
    ((({ buffer := List.replicate 40 0, sampling_rate := 10, sample_width := 2,
          channels := 1, current_position_bytes := 0, isOpen := true } :
            BufferAudioSource).set_position 25).map
        BufferAudioSource.get_position = .ok (20 : ℚ))
    ∧ ({ buffer := List.replicate 40 0, sampling_rate := 10, sample_width := 2,
          channels := 1, current_position_bytes := 0, isOpen := true } :
            BufferAudioSource).set_position (-1)
        = .error (.valueError "position must be >= 0") := by
  constructor
  · have h := (set_position_clamps_and_rejects_negative
      { buffer := List.replicate 40 0, sampling_rate := 10, sample_width := 2,
        channels := 1, current_position_bytes := 0, isOpen := true }
      25 (by decide) (by decide)).1 (by decide)
    simpa using h
  · exact (set_position_clamps_and_rejects_negative
      { buffer := List.replicate 40 0, sampling_rate := 10, sample_width := 2,
        channels := 1, current_position_bytes := 0, isOpen := true }
      (-1) (by decide) (by decide)).2 (by decide)

/-- C5: on an open `BufferAudioSource` with a positive requested size,
`read(size)` returns exactly `size` frames of bytes from the current
position and advances the position by that many bytes when at least `size`
frames remain; returns exactly the remaining bytes and advances to the end
when fewer than `size` frames remain but data is left; and returns the end
marker, with the position unchanged, when the position equals the buffer
length. -/
theorem buffer_read_contract (s : BufferAudioSource) (size : Nat)
    (hopen : s.isOpen = true) (hsize : 0 < size)
    (hS : 0 < s.sample_size_all_channels) :
    (s.sample_size_all_channels * size
        ≤ s.buffer.length - s.current_position_bytes →
       s.read size
         = .ok (some ((s.buffer.drop s.current_position_bytes).take
                  (s.sample_size_all_channels * size)),
             { s with current_position_bytes :=
                 s.current_position_bytes + s.sample_size_all_channels * size })
       ∧ ((s.buffer.drop s.current_position_bytes).take
            (s.sample_size_all_channels * size)).length
           = s.sample_size_all_channels * size)
    ∧ (s.current_position_bytes < s.buffer.length →
       s.buffer.length - s.current_position_bytes
           < s.sample_size_all_channels * size →
       s.read size
         = .ok (some (s.buffer.drop s.current_position_bytes),
             { s with current_position_bytes := s.buffer.length })
       ∧ (s.buffer.drop s.current_position_bytes).length
           = s.buffer.length - s.current_position_bytes)
    ∧ (s.current_position_bytes = s.buffer.length →
       s.read size = .ok (none, s)) := by
  refine ⟨?_, ?_, ?_⟩
  · intro h1
    have hdl : ((s.buffer.drop s.current_position_bytes).take
        (s.sample_size_all_channels * size)).length
        = s.sample_size_all_channels * size := by
      simp only [List.length_take, List.length_drop]
      omega
    have hpos : 0 < s.sample_size_all_channels * size :=
      Nat.mul_pos hS hsize
    have hne : (s.buffer.drop s.current_position_bytes).take
        (s.sample_size_all_channels * size) ≠ [] := by
      intro hc
      rw [hc] at hdl
      simp at hdl
      omega
    refine ⟨?_, hdl⟩
    simp only [BufferAudioSource.read, hopen, if_true, if_neg hne, hdl]
  · intro h1 h2
    have hlen : (s.buffer.drop s.current_position_bytes).length
        = s.buffer.length - s.current_position_bytes := by
      simp
    have htake : (s.buffer.drop s.current_position_bytes).take
        (s.sample_size_all_channels * size)
        = s.buffer.drop s.current_position_bytes := by
      apply List.take_of_length_le
      omega
    have hne : s.buffer.drop s.current_position_bytes ≠ [] := by
      intro hc
      rw [hc] at hlen
      simp at hlen
      omega
    have hadv : s.current_position_bytes
        + (s.buffer.drop s.current_position_bytes).length = s.buffer.length := by
      rw [hlen]
      omega
    refine ⟨?_, hlen⟩
    simp only [BufferAudioSource.read, hopen, if_true, htake, if_neg hne, hadv]
  · intro h1
    simp only [BufferAudioSource.read, hopen, if_true, h1]
    simp

/-- C5 witness: full read, short read near the end, and end marker on a
concrete 3-frame source (2-byte mono frames). -/
theorem buffer_read_contract_witness :
    (({ buffer := [1, 2, 3, 4, 5, 6], sampling_rate := 8000, sample_width := 2,
        channels := 1, current_position_bytes := 0, isOpen := true } :
          BufferAudioSource).read 2
      = .ok (some [1, 2, 3, 4],
          { buffer := [1, 2, 3, 4, 5, 6], sampling_rate := 8000,
            sample_width := 2, channels := 1, current_position_bytes := 4,
            isOpen := true }))
    ∧ (({ buffer := [1, 2, 3, 4, 5, 6], sampling_rate := 8000,
          sample_width := 2, channels := 1, current_position_bytes := 4,
          isOpen := true } : BufferAudioSource).read 2
      = .ok (some [5, 6],
          { buffer := [1, 2, 3, 4, 5, 6], sampling_rate := 8000,
            sample_width := 2, channels := 1, current_position_bytes := 6,
            isOpen := true }))
    ∧ (({ buffer := [1, 2, 3, 4, 5, 6], sampling_rate := 8000,
          sample_width := 2, channels := 1, current_position_bytes := 6,
          isOpen := true } : BufferAudioSource).read 2
      = .ok (none,
          { buffer := [1, 2, 3, 4, 5, 6], sampling_rate := 8000,
            sample_width := 2, channels := 1, current_position_bytes := 6,
            isOpen := true })) := by
  refine ⟨?_, ?_, ?_⟩
  · have h := ((buffer_read_contract
      { buffer := [1, 2, 3, 4, 5, 6], sampling_rate := 8000, sample_width := 2,
        channels := 1, current_position_bytes := 0, isOpen := true }
      2 rfl (by decide) (by decide)).1 (by decide)).1
    simpa using h
  · have h := (((buffer_read_contract
      { buffer := [1, 2, 3, 4, 5, 6], sampling_rate := 8000, sample_width := 2,
        channels := 1, current_position_bytes := 4, isOpen := true }
      2 rfl (by decide) (by decide)).2).1 (by decide) (by decide)).1
    simpa using h
  · exact ((buffer_read_contract
      { buffer := [1, 2, 3, 4, 5, 6], sampling_rate := 8000, sample_width := 2,
        channels := 1, current_position_bytes := 6, isOpen := true }
      2 rfl (by decide) (by decide)).2).2 (by decide)

/-- C2 counterexample: with sampling rate 10 and t = 19/100 seconds, the
code stores `int(10 * 0.19) = 1` samples (truncation), so
`get_time_position` returns 1/10, while the claimed value
`round(10 * 0.19)/10 = 2/10` differs. -/
theorem set_time_position_round_counterexample :
    ((({ buffer := List.replicate 40 0, sampling_rate := 10, sample_width := 2,
          channels := 1, current_position_bytes := 0, isOpen := true } :
            BufferAudioSource).set_time_position (19/100)).map
        BufferAudioSource.get_time_position = .ok (1/10))
    ∧ ((round ((10 : ℚ) * (19/100)) : Int) : ℚ) / 10 = 1/5
    ∧ (1/10 : ℚ) ≠ 1/5 := by
  refine ⟨?_, by norm_num [round_eq], by norm_num⟩
  have hfloor : (⌊(10 : ℚ) * (19/100)⌋ : Int) = 1 := by norm_num
  have hpi : pyInt ((10 : ℚ) * (19/100)) = 1 := by
    rw [pyInt, if_neg (by norm_num)]
    exact hfloor
  simp only [BufferAudioSource.set_time_position, BufferAudioSource.set_position,
    BufferAudioSource.sample_size_all_channels, BufferAudioSource.get_time_position,
    Except.map]
  norm_num [pyInt, show Int.toNat 2 = 2 from rfl]

/-- C2 (amended): for a non-negative time `t`, `set_time_position t`
followed by `get_time_position` returns
`min(int(sampling_rate * t), total_samples) / sampling_rate`, where `int`
truncates toward zero (Python `int()`), i.e. the time is truncated — not
rounded — to a whole sample and clamped to the end of the buffer. -/
theorem set_time_position_truncates (s : BufferAudioSource) (t : ℚ)
    (ht : 0 ≤ t) (hS : 0 < s.sample_size_all_channels)
    (hdiv : s.sample_size_all_channels ∣ s.buffer.length)
    (hsr : 0 < s.sampling_rate) :
    (s.set_time_position t).map BufferAudioSource.get_time_position
      = .ok (((min (pyInt ((s.sampling_rate : ℚ) * t))
            ((s.buffer.length / s.sample_size_all_channels : Nat) : Int) : Int) : ℚ)
          / (s.sampling_rate : ℚ)) := by
  simp only [BufferAudioSource.sample_size_all_channels] at hS hdiv ⊢
  have hq : 0 ≤ (s.sampling_rate : ℚ) * t := mul_nonneg (by positivity) ht
  have hpint : pyInt ((s.sampling_rate : ℚ) * t)
      = ⌊(s.sampling_rate : ℚ) * t⌋ := by
    rw [pyInt, if_neg (not_lt.mpr hq)]
  have hp0 : 0 ≤ ⌊(s.sampling_rate : ℚ) * t⌋ := Int.floor_nonneg.mpr hq
  have hnb : (s.buffer.length / (s.sample_width * s.channels))
      * (s.sample_width * s.channels) = s.buffer.length := Nat.div_mul_cancel hdiv
  have hSQ : ((s.sample_width * s.channels : Nat) : ℚ) ≠ 0 :=
    Nat.cast_ne_zero.mpr hS.ne'
  have hsrQ : ((s.sampling_rate : Nat) : ℚ) ≠ 0 :=
    Nat.cast_ne_zero.mpr hsr.ne'
  obtain ⟨hsw0, hch0⟩ := Nat.mul_ne_zero_iff.mp hS.ne'
  have hswQ : ((s.sample_width : Nat) : ℚ) ≠ 0 := Nat.cast_ne_zero.mpr hsw0
  have hchQ : ((s.channels : Nat) : ℚ) ≠ 0 := Nat.cast_ne_zero.mpr hch0
  rw [hpint]
  simp only [BufferAudioSource.set_time_position, hpint,
    BufferAudioSource.set_position, BufferAudioSource.sample_size_all_channels,
    if_neg (not_lt.mpr hp0), Except.map, BufferAudioSource.get_time_position]
  congr 1
  by_cases hlt : ⌊(s.sampling_rate : ℚ) * t⌋
      * ((s.sample_width * s.channels : Nat) : Int) < (s.buffer.length : Int)
  · rw [if_pos hlt]
    have hplt : ⌊(s.sampling_rate : ℚ) * t⌋
        < ((s.buffer.length / (s.sample_width * s.channels) : Nat) : Int) := by
      have hnbI : ((s.buffer.length / (s.sample_width * s.channels) : Nat) : Int)
          * ((s.sample_width * s.channels : Nat) : Int)
          = (s.buffer.length : Int) := by exact_mod_cast hnb
      by_contra hcon
      push_neg at hcon
      have hmul := mul_le_mul_of_nonneg_right hcon
        (by positivity : (0 : Int) ≤ ((s.sample_width * s.channels : Nat) : Int))
      omega
    have hpb0 : (0 : Int) ≤ ⌊(s.sampling_rate : ℚ) * t⌋
        * ((s.sample_width * s.channels : Nat) : Int) := by positivity
    have hcast : (((⌊(s.sampling_rate : ℚ) * t⌋
          * ((s.sample_width * s.channels : Nat) : Int)).toNat : Nat) : ℚ)
        = (⌊(s.sampling_rate : ℚ) * t⌋ : ℚ)
          * ((s.sample_width * s.channels : Nat) : ℚ) := by
      have h1 : ((⌊(s.sampling_rate : ℚ) * t⌋
            * ((s.sample_width * s.channels : Nat) : Int)).toNat : Int)
          = ⌊(s.sampling_rate : ℚ) * t⌋
            * ((s.sample_width * s.channels : Nat) : Int) :=
        Int.toNat_of_nonneg hpb0
      exact_mod_cast congrArg (fun z : Int => (z : ℚ)) h1
    rw [min_eq_left hplt.le, hcast]
    push_cast
    field_simp [hswQ, hchQ, hsrQ]
    ring
  · rw [if_neg hlt]
    push_neg at hlt
    have hple : ((s.buffer.length / (s.sample_width * s.channels) : Nat) : Int)
        ≤ ⌊(s.sampling_rate : ℚ) * t⌋ := by
      have hnbI : ((s.buffer.length / (s.sample_width * s.channels) : Nat) : Int)
          * ((s.sample_width * s.channels : Nat) : Int)
          = (s.buffer.length : Int) := by exact_mod_cast hnb
      have hSI : (0 : Int) < ((s.sample_width * s.channels : Nat) : Int) := by
        exact_mod_cast hS
      nlinarith
    rw [min_eq_right hple]
    have hR : ((((s.buffer.length / (s.sample_width * s.channels) : Nat) : Int)) : ℚ)
        = (s.buffer.length : ℚ) / ((s.sample_width * s.channels : Nat) : ℚ) := by
      rw [Int.cast_natCast, Nat.cast_div hdiv hSQ]
    rw [hR]
    push_cast
    field_simp [hswQ, hchQ, hsrQ]

/-- C2 witness: the amended statement evaluated on a 20-sample source with
sampling rate 10 and t = 19/100 seconds: the stored time is
min(1, 20)/10 = 1/10. -/
theorem set_time_position_truncates_witness :
    ((({ buffer := List.replicate 40 0, sampling_rate := 10, sample_width := 2,
          channels := 1, current_position_bytes := 0, isOpen := true } :
            BufferAudioSource).set_time_position (19/100)).map
        BufferAudioSource.get_time_position
      = .ok (((min (pyInt ((10 : ℚ) * (19/100))) 20 : Int) : ℚ) / (10 : ℚ))) := by
  have h := set_time_position_truncates
    { buffer := List.replicate 40 0, sampling_rate := 10, sample_width := 2,
      channels := 1, current_position_bytes := 0, isOpen := true }
    (19/100) (by norm_num) (by decide) (by decide) (by decide)
  simpa using h

/-! ### Byte-codec and chunking lemmas for the channel extractor -/

/-- Encoding with `encodeSigned` always produces exactly `w` bytes. -/
theorem encodeSigned_length (w : Nat) (v : Int) : (encodeSigned w v).length = w := by
  simp [encodeSigned]

/-- Chunking the empty buffer gives no chunks. -/
theorem chunksOf_nil (n : Nat) : chunksOf n [] = [] := by
  rw [chunksOf]
  simp

/-- Chunking peels off a leading chunk of exactly `n` bytes. -/
theorem chunksOf_append (n : Nat) (l₁ l₂ : List Nat) (h : l₁.length = n)
    (hn : 0 < n) : chunksOf n (l₁ ++ l₂) = l₁ :: chunksOf n l₂ := by
  rw [chunksOf]
  have hne : l₁ ++ l₂ ≠ [] := by
    intro hcon
    rcases List.append_eq_nil.mp hcon with ⟨h1, _⟩
    rw [h1] at h
    simp at h
    omega
  rw [dif_neg (by push_neg; exact ⟨by omega, hne⟩)]
  rw [← h, List.take_left, List.drop_left]

/-- A buffer of exactly `n` bytes is a single chunk. -/
theorem chunksOf_exact (n : Nat) (l : List Nat) (h : l.length = n) (hn : 0 < n) :
    chunksOf n l = [l] := by
  have happ := chunksOf_append n l [] h hn
  simpa [chunksOf_nil] using happ

/-- Decoding inverts the 2-byte little-endian two's-complement encoding on
the signed 16-bit range. -/
theorem toSigned_leDecode_encodeSigned (v : Int) (h1 : -32768 ≤ v)
    (h2 : v < 32768) : toSigned 2 (leDecode (encodeSigned 2 v)) = v := by
  have he : encodeSigned 2 v
      = [((v % 65536).toNat) % 256, (((v % 65536).toNat / 256)) % 256] := by
    simp [encodeSigned, List.range_succ]
  rw [he]
  simp only [leDecode, List.foldr, toSigned]
  norm_num
  split <;> omega

/-- The two signed samples of an encoded 16-bit stereo frame. -/
theorem frameSamples_stereo (a b : Int) (ha1 : -32768 ≤ a) (ha2 : a < 32768)
    (hb1 : -32768 ≤ b) (hb2 : b < 32768) :
    frameSamples 2 (encodeSigned 2 a ++ encodeSigned 2 b) = [a, b] := by
  rw [frameSamples,
    chunksOf_append 2 _ _ (encodeSigned_length 2 a) (by norm_num),
    chunksOf_exact 2 _ (encodeSigned_length 2 b) (by norm_num)]
  simp [toSigned_leDecode_encodeSigned a ha1 ha2,
    toSigned_leDecode_encodeSigned b hb1 hb2]

/-- An interleaved stereo buffer chunks into its frames. -/
theorem chunksOf_stereo (frames : List (Int × Int)) :
    chunksOf 4 ((frames.map stereoFrame).flatten) = frames.map stereoFrame := by
  induction frames with
  | nil => simp [chunksOf_nil]
  | cons p ps ih =>
    simp only [List.map_cons, List.flatten_cons]
    rw [chunksOf_append 4 _ _ (by simp [stereoFrame, encodeSigned_length])
      (by norm_num), ih]

/-- Length of an encoded 16-bit stereo buffer: 4 bytes per frame. -/
theorem stereo_length (frames : List (Int × Int)) :
    ((frames.map stereoFrame).flatten).length = 4 * frames.length := by
  induction frames with
  | nil => simp
  | cons p ps ih =>
    simp only [List.map_cons, List.flatten_cons, List.length_append, ih,
      List.length_cons]
    simp [stereoFrame, encodeSigned_length]
    omega

/-- Length of the mixed mono buffer: 2 bytes per frame. -/
theorem mix_length (frames : List (Int × Int)) :
    ((frames.map mixFrame).flatten).length = 2 * frames.length := by
  induction frames with
  | nil => simp
  | cons p ps ih =>
    simp only [List.map_cons, List.flatten_cons, List.length_append, ih,
      List.length_cons]
    simp [mixFrame, encodeSigned_length]
    omega

/-- The mix extraction on an encoded 16-bit stereo buffer produces exactly
the per-frame rounded means, re-encoded. -/
theorem mix_stereo_eq (frames : List (Int × Int))
    (hr : ∀ p ∈ frames,
      -32768 ≤ p.1 ∧ p.1 < 32768 ∧ -32768 ≤ p.2 ∧ p.2 < 32768) :
    _extract_selected_channel ((frames.map stereoFrame).flatten) 2 2 .mix
      = .ok ((frames.map mixFrame).flatten) := by
  have hdvd : (2 * 2 : Nat) ∣ ((frames.map stereoFrame).flatten).length :=
    ⟨frames.length, by rw [stereo_length]⟩
  rw [_extract_selected_channel, if_neg (not_not_intro hdvd)]
  have h4 : (2 * 2 : Nat) = 4 := rfl
  rw [h4, chunksOf_stereo, List.map_map]
  congr 1
  congr 1
  apply List.map_congr_left
  intro p hp
  obtain ⟨ha1, ha2, hb1, hb2⟩ := hr p hp
  simp only [Function.comp, stereoFrame, mixFrame,
    frameSamples_stereo p.1 p.2 ha1 ha2 hb1 hb2]
  congr 1
  simp [List.sum_cons]

/-- C1: extracting with `use_channel="mix"` from any interleaved 2-channel
buffer of 2-byte samples yields the mono buffer whose k-th sample is the
arithmetic mean of the two channel samples of frame k rounded to the
nearest integer; the output length is `len(buffer) / channels`; and on the
buffer encoding the frames [(100, 200), (-50, 50)] the resulting mono
samples are [150, 0]. -/
theorem extract_mix_stereo16 (frames : List (Int × Int))
    (hr : ∀ p ∈ frames,
      -32768 ≤ p.1 ∧ p.1 < 32768 ∧ -32768 ≤ p.2 ∧ p.2 < 32768) :
    _extract_selected_channel ((frames.map stereoFrame).flatten) 2 2 .mix
      = .ok ((frames.map mixFrame).flatten)
    ∧ ((frames.map mixFrame).flatten).length
        = ((frames.map stereoFrame).flatten).length / 2
    ∧ (_extract_selected_channel
          (([((100 : Int), (200 : Int)), (-50, 50)].map stereoFrame).flatten)
          2 2 .mix
        = .ok [150, 0, 0, 0]
      ∧ (chunksOf 2 [150, 0, 0, 0]).map (fun sb => toSigned 2 (leDecode sb))
          = [150, 0]) := by
  have hmix : ([((100 : Int), (200 : Int)), (-50, 50)].map mixFrame).flatten
      = [150, 0, 0, 0] := by
    have h1 : round ((((100 : Int) + 200 : Int) : ℚ) / 2) = 150 := by
      norm_num [round_eq]
    have h2 : round ((((-50 : Int) + 50 : Int) : ℚ) / 2) = 0 := by
      norm_num [round_eq]
    simp only [List.map_cons, List.map_nil, mixFrame]
    norm_num [h1, h2]
    decide
  refine ⟨mix_stereo_eq frames hr, ?_, ?_, ?_⟩
  · rw [mix_length, stereo_length]
    omega
  · rw [mix_stereo_eq [((100 : Int), (200 : Int)), (-50, 50)] (by decide), hmix]
  · have hsplit : ([150, 0, 0, 0] : List Nat) = [150, 0] ++ [0, 0] := rfl
    rw [hsplit, chunksOf_append 2 _ _ (by decide) (by decide),
      chunksOf_exact 2 _ (by decide) (by decide)]
    decide

/-- C1 witness: the mix extraction evaluated on the concrete two-frame
stereo buffer of the claim. -/
theorem extract_mix_stereo16_witness :
    _extract_selected_channel
        (([((100 : Int), (200 : Int)), (-50, 50)].map stereoFrame).flatten)
        2 2 .mix
      = .ok (([((100 : Int), (200 : Int)), (-50, 50)].map mixFrame).flatten) :=
  (extract_mix_stereo16 [((100 : Int), (200 : Int)), (-50, 50)] (by decide)).1

/-- C4 counterexample: with both names present for sampling_rate — the long
name bound to 0 and the short alias `sr` bound to 8000 — the resolver
returns 8000, not the long name's value 0: the `or`-fallback skips a falsy
long value instead of giving the long name precedence. -/
theorem get_audio_parameters_precedence_counterexample :
    _get_audio_parameters
        [("sampling_rate", .vInt 0), ("sr", .vInt 8000),
         ("sample_width", .vInt 2), ("channels", .vInt 1)]
      = .ok (8000, 2, 1, .index 0)
    ∧ lookupVal
        [("sampling_rate", .vInt 0), ("sr", .vInt 8000),
         ("sample_width", .vInt 2), ("channels", .vInt 1)] "sampling_rate"
      = some (.vInt 0)
    ∧ (8000 : Int) ≠ 0 := by
  refine ⟨rfl, by decide, by decide⟩

/-- C4 (amended): for each of sampling_rate/sample_width/channels the value
used is the long name's value when that value is truthy, otherwise the
short alias's value (a falsy long value — None or 0 — defers to the short
alias); and when the selected value of a field is None or not an integer,
the resolver fails with an `AudioParameterError` naming that field (the
first such field in the order sampling_rate, sample_width, channels). -/
theorem get_audio_parameters_amended (d : List (String × PyVal)) :
    (∀ nsr nsw nch : Int, ∀ u : UseChannel,
      pyGetD d "sampling_rate" .vNone = .vInt nsr → nsr ≠ 0 →
      pyGetD d "sample_width" .vNone = .vInt nsw → nsw ≠ 0 →
      pyGetD d "channels" .vNone = .vInt nch → nch ≠ 0 →
      _normalize_use_channel (pyGetD d "use_channel" (pyGetD d "uc" (.vInt 0)))
        = .ok u →
      _get_audio_parameters d = .ok (nsr, nsw, nch, u))
    ∧ ((selected_param d "sampling_rate" "sr").isInt = false →
      _get_audio_parameters d = .error (.audioParameterError
        (errIntMsg "sampling_rate" "sr" (selected_param d "sampling_rate" "sr"))))
    ∧ (∀ nsr : Int, selected_param d "sampling_rate" "sr" = .vInt nsr →
      (selected_param d "sample_width" "sw").isInt = false →
      _get_audio_parameters d = .error (.audioParameterError
        (errIntMsg "sample_width" "sw" (selected_param d "sample_width" "sw"))))
    ∧ (∀ nsr nsw : Int, selected_param d "sampling_rate" "sr" = .vInt nsr →
      selected_param d "sample_width" "sw" = .vInt nsw →
      (selected_param d "channels" "ch").isInt = false →
      _get_audio_parameters d = .error (.audioParameterError
        (errIntMsg "channels" "ch" (selected_param d "channels" "ch")))) := by
  have hresOk : ∀ (long short : String) (n : Int),
      selected_param d long short = .vInt n →
      _resolve_int_param d long short = .ok n := by
    intro long short n h
    rw [_resolve_int_param, h]
  have hresE : ∀ (long short : String),
      (selected_param d long short).isInt = false →
      _resolve_int_param d long short = .error (.audioParameterError
        (errIntMsg long short (selected_param d long short))) := by
    intro long short h
    rw [_resolve_int_param]
    cases hv : selected_param d long short with
    | vNone => rfl
    | vInt n =>
      rw [hv] at h
      simp [PyVal.isInt] at h
    | vStr str => rfl
  have hsel : ∀ (long short : String) (n : Int), n ≠ 0 →
      pyGetD d long .vNone = .vInt n → selected_param d long short = .vInt n := by
    intro long short n hn h
    rw [selected_param, h]
    simp [pyOr, PyVal.truthy, bne_iff_ne, hn]
  refine ⟨?_, ?_, ?_, ?_⟩
  · intro nsr nsw nch u h1 hn1 h2 hn2 h3 hn3 hu
    simp only [_get_audio_parameters, Bind.bind, Except.bind,
      hresOk "sampling_rate" "sr" nsr (hsel _ "sr" nsr hn1 h1),
      hresOk "sample_width" "sw" nsw (hsel _ "sw" nsw hn2 h2),
      hresOk "channels" "ch" nch (hsel _ "ch" nch hn3 h3),
      hu, pure, Except.pure]
  · intro h
    simp only [_get_audio_parameters, Bind.bind, Except.bind,
      hresE "sampling_rate" "sr" h]
  · intro nsr h1 h
    simp only [_get_audio_parameters, Bind.bind, Except.bind,
      hresOk "sampling_rate" "sr" nsr h1, hresE "sample_width" "sw" h]
  · intro nsr nsw h1 h2 h
    simp only [_get_audio_parameters, Bind.bind, Except.bind,
      hresOk "sampling_rate" "sr" nsr h1, hresOk "sample_width" "sw" nsw h2,
      hresE "channels" "ch" h]

/-- C4 witness: the amended behaviour on concrete dictionaries — truthy
long values win over present short aliases; a missing sampling rate, a
string sample width and a missing channel count each fail with the error
naming that field. -/
theorem get_audio_parameters_amended_witness :
    _get_audio_parameters
        [("sampling_rate", .vInt 16000), ("sr", .vInt 8000),
         ("sample_width", .vInt 2), ("channels", .vInt 1)]
      = .ok (16000, 2, 1, .index 0)
    ∧ _get_audio_parameters [("sample_width", .vInt 2), ("channels", .vInt 1)]
      = .error (.audioParameterError (errIntMsg "sampling_rate" "sr"
          (selected_param [("sample_width", .vInt 2), ("channels", .vInt 1)]
            "sampling_rate" "sr")))
    ∧ _get_audio_parameters
        [("sampling_rate", .vInt 16000), ("sample_width", .vStr "two"),
         ("channels", .vInt 1)]
      = .error (.audioParameterError (errIntMsg "sample_width" "sw"
          (selected_param
            [("sampling_rate", .vInt 16000), ("sample_width", .vStr "two"),
             ("channels", .vInt 1)] "sample_width" "sw")))
    ∧ _get_audio_parameters
        [("sampling_rate", .vInt 16000), ("sample_width", .vInt 2)]
      = .error (.audioParameterError (errIntMsg "channels" "ch"
          (selected_param [("sampling_rate", .vInt 16000),
            ("sample_width", .vInt 2)] "channels" "ch"))) :=
  ⟨(get_audio_parameters_amended _).1 16000 2 1 (.index 0)
      (by decide) (by decide) (by decide) (by decide) (by decide) (by decide) rfl,
   (get_audio_parameters_amended _).2.1 (by decide),
   (get_audio_parameters_amended _).2.2.1 16000 (by decide) (by decide),
   (get_audio_parameters_amended _).2.2.2 16000 2 (by decide) (by decide) (by decide)⟩

/-- C6 (bug evidence): an open `StdinAudioSource` configured for 2-byte
mono frames whose standard input holds exactly 3 bytes returns all 3 bytes
from `read 2` — a non-end-marker buffer whose length is not a multiple of
`sample_width * channels = 2`, violating the documented read contract. -/
theorem stdin_read_misaligned_bug :
    StdinAudioSource.read
        { sampling_rate := 16000, sample_width := 2, channels := 1,
          isOpen := true } [9, 9, 9] 2
      = .ok (some [9, 9, 9], [])
    ∧ ¬ ((2 * 1 : Nat) ∣ ([9, 9, 9] : List Nat).length) := by
  refine ⟨rfl, by decide⟩

/-- C7: saving with format `None` to a filename without an extension takes
the raw path and writes exactly the input bytes with no header; re-loading
those bytes through the raw load path with `channels = 1` (and a valid
sample width dividing the data length) yields a `BufferAudioSource` whose
backing buffer is byte-identical to the saved data. -/
theorem save_raw_load_roundtrip (data : List Nat) (file : String)
    (kwargs : List (String × PyVal)) (withPydub : Bool) (sr sw : Nat)
    (uc : UseChannel)
    (hnoext : splitextExt (pyLower file).toList = [])
    (hsw : sw = 1 ∨ sw = 2 ∨ sw = 4) (hal : sw ∣ data.length) :
    to_file data file none kwargs withPydub = .ok (.raw data)
    ∧ (_load_raw data (some sr) (some sw) (some 1) uc).map
        BufferAudioSource.get_data_buffer = .ok data := by
  constructor
  · have hfmt : _guess_audio_format none file = none := by
      rw [_guess_audio_format]
      have hd : splitextExt (pyLower file).data = [] := hnoext
      simp [hd]
    rw [to_file, hfmt]
    simp
  · have hval : audioSourceValidate sw 1 = .ok () := by
      rw [audioSourceValidate, if_pos hsw]
      rfl
    have hchk : check_audio_data data sw 1 = .ok () :=
      check_audio_data_ok data sw 1 (by simpa using hal)
    simp only [_load_raw]
    rw [if_neg (by simp)]
    simp only [BufferAudioSource.make, Bind.bind, Except.bind, hval, hchk,
      Except.map, pure, Except.pure, BufferAudioSource.get_data_buffer]

/-- C7 witness: saving three bytes with no format to the extensionless
filename "audiofile" writes them verbatim, and the raw load path returns
them unchanged. -/
theorem save_raw_load_roundtrip_witness :
    to_file [1, 2, 3] "audiofile" none [] false = .ok (.raw [1, 2, 3])
    ∧ (_load_raw [1, 2, 3] (some 16000) (some 1) (some 1) (.index 0)).map
        BufferAudioSource.get_data_buffer = .ok [1, 2, 3] :=
  save_raw_load_roundtrip [1, 2, 3] "audiofile" [] false 16000 1 (.index 0)
    (by decide) (by decide) (by decide)

/-- A parameter pair that is entirely absent from the options forces
`_get_audio_parameters` to fail, and every failure it can produce there is
an `AudioParameterError`. -/
theorem get_audio_parameters_missing_error (d : List (String × PyVal))
    (h : (lookupVal d "sampling_rate" = none ∧ lookupVal d "sr" = none)
       ∨ (lookupVal d "sample_width" = none ∧ lookupVal d "sw" = none)
       ∨ (lookupVal d "channels" = none ∧ lookupVal d "ch" = none)) :
    ∃ msg, _get_audio_parameters d = .error (.audioParameterError msg) := by
  have hselN : ∀ (long short : String), lookupVal d long = none →
      lookupVal d short = none → selected_param d long short = .vNone := by
    intro long short h1 h2
    rw [selected_param, pyGetD, h1, pyGetD, h2]
    rfl
  have hresE : ∀ (long short : String), selected_param d long short = .vNone →
      _resolve_int_param d long short
        = .error (.audioParameterError (errIntMsg long short .vNone)) := by
    intro long short hsel
    rw [_resolve_int_param, hsel]
  have hshape : ∀ (long short : String) (e : PyErr),
      _resolve_int_param d long short = .error e →
      ∃ msg, e = .audioParameterError msg := by
    intro long short e he
    rw [_resolve_int_param] at he
    cases hv : selected_param d long short with
    | vNone =>
      rw [hv] at he
      exact ⟨_, (Except.error.inj he).symm⟩
    | vInt n =>
      rw [hv] at he
      cases he
    | vStr str =>
      rw [hv] at he
      exact ⟨_, (Except.error.inj he).symm⟩
  rcases h with ⟨h1, h2⟩ | ⟨h1, h2⟩ | ⟨h1, h2⟩
  · refine ⟨errIntMsg "sampling_rate" "sr" .vNone, ?_⟩
    simp only [_get_audio_parameters, Bind.bind, Except.bind,
      hresE _ _ (hselN _ _ h1 h2)]
  · cases hr1 : _resolve_int_param d "sampling_rate" "sr" with
    | error e =>
      obtain ⟨msg, rfl⟩ := hshape _ _ _ hr1
      refine ⟨msg, ?_⟩
      simp only [_get_audio_parameters, Bind.bind, Except.bind, hr1]
    | ok n =>
      refine ⟨errIntMsg "sample_width" "sw" .vNone, ?_⟩
      simp only [_get_audio_parameters, Bind.bind, Except.bind, hr1,
        hresE _ _ (hselN _ _ h1 h2)]
  · cases hr1 : _resolve_int_param d "sampling_rate" "sr" with
    | error e =>
      obtain ⟨msg, rfl⟩ := hshape _ _ _ hr1
      refine ⟨msg, ?_⟩
      simp only [_get_audio_parameters, Bind.bind, Except.bind, hr1]
    | ok n =>
      cases hr2 : _resolve_int_param d "sample_width" "sw" with
      | error e =>
        obtain ⟨msg, rfl⟩ := hshape _ _ _ hr2
        refine ⟨msg, ?_⟩
        simp only [_get_audio_parameters, Bind.bind, Except.bind, hr1, hr2]
      | ok m =>
        refine ⟨errIntMsg "channels" "ch" .vNone, ?_⟩
        simp only [_get_audio_parameters, Bind.bind, Except.bind, hr1, hr2,
          hresE _ _ (hselN _ _ h1 h2)]

/-- C8: saving through `to_file` to a non-raw, non-wave format with any of
sampling_rate / sample_width / channels entirely absent from the options
fails with an `AudioParameterError` before any write is attempted: the
result is an error and no `WriteAction` (file write) is produced. -/
theorem to_file_missing_params_fails (data : List Nat) (file : String)
    (fmt : Option String) (kwargs : List (String × PyVal))
    (withPydub : Bool) (f : String)
    (hfmt : _guess_audio_format fmt file = some f)
    (hraw : f ≠ "raw")
    (hmiss : (lookupVal kwargs "sampling_rate" = none
                ∧ lookupVal kwargs "sr" = none)
       ∨ (lookupVal kwargs "sample_width" = none
                ∧ lookupVal kwargs "sw" = none)
       ∨ (lookupVal kwargs "channels" = none
                ∧ lookupVal kwargs "ch" = none)) :
    to_file data file fmt kwargs withPydub
      = .error (.audioParameterError
          "All audio parameters are required to save formats ") := by
  obtain ⟨msg, herr⟩ := get_audio_parameters_missing_error kwargs hmiss
  rw [to_file, hfmt]
  rw [if_neg (by simp [hraw])]
  rw [herr]

/-- C8 witness: saving to format "mp3" with the sampling rate absent from
the options fails with the parameter error and produces no write. -/
theorem to_file_missing_params_fails_witness :
    to_file [1, 2] "x" (some "mp3")
        [("sample_width", .vInt 2), ("channels", .vInt 1)] true
      = .error (.audioParameterError
          "All audio parameters are required to save formats ") :=
  to_file_missing_params_fails [1, 2] "x" (some "mp3")
    [("sample_width", .vInt 2), ("channels", .vInt 1)] true "mp3"
    (by decide) (by decide) (Or.inl ⟨by decide, by decide⟩)

end Auditok
